import Mathlib

/-!
Verification development for the pixelmorpher repository: transformation
configuration merging, the image CRUD action handlers, the memoized database
connector, and the transformation form's handler logic.
-/

/-! ## Transformation configuration (src/types/index.d.ts, `Transformations`)

The declared shape is
`{restore?: boolean, fillBackground?: boolean, remove?: {prompt, removeShadow?, multiple?},
  recolor?: {prompt?, to, multiple?}, removeBackground?: boolean}`.
At runtime the form builds these objects incrementally (a `recolor` object may
momentarily hold only `to` or only `prompt`), so every field is an `Option`. -/

structure RemoveConfig where
  prompt : Option String
  removeShadow : Option Bool
  multiple : Option Bool
deriving DecidableEq, Repr

structure RecolorConfig where
  prompt : Option String
  «to» : Option String
  multiple : Option Bool
deriving DecidableEq, Repr

structure Transformations where
  restore : Option Bool
  fillBackground : Option Bool
  remove : Option RemoveConfig
  recolor : Option RecolorConfig
  removeBackground : Option Bool
deriving DecidableEq, Repr

def emptyTransformations : Transformations :=
  { restore := none, fillBackground := none, remove := none, recolor := none,
    removeBackground := none }

def emptyRemoveConfig : RemoveConfig :=
  { prompt := none, removeShadow := none, multiple := none }

def emptyRecolorConfig : RecolorConfig :=
  { prompt := none, «to» := none, multiple := none }

/-! ## Deep merge

Modelled from the spec: `deepMergeObjects` lives in `src/lib/utils`, which is
not part of the source tree; only its call site
(`deepMergeObjects(newTransformation, transformationConfig)` in
`onTransformHandler`) is. The spec's policy: "merging two configuration
objects recursively overlays the new object's keys onto the existing one;
conflicting scalar keys take the newer value". The merge is instantiated at
the `Transformations` type declared in src/types/index.d.ts: `restore`,
`fillBackground`, `removeBackground` and the leaves of `remove`/`recolor` are
scalars (newer value wins when present), while `remove` and `recolor` are
nested objects (merged recursively when present on both sides). -/

def mergeRemoveConfig (newer older : RemoveConfig) : RemoveConfig :=
  { prompt := newer.prompt <|> older.prompt,
    removeShadow := newer.removeShadow <|> older.removeShadow,
    multiple := newer.multiple <|> older.multiple }

def mergeRecolorConfig (newer older : RecolorConfig) : RecolorConfig :=
  { prompt := newer.prompt <|> older.prompt,
    «to» := newer.«to» <|> older.«to»,
    multiple := newer.multiple <|> older.multiple }

/-- Merge an optional nested object: present on both sides means a recursive
merge; otherwise whichever side is present survives. -/
def mergeOptNested {α : Type} (m : α → α → α) : Option α → Option α → Option α
  | some n, some o => some (m n o)
  | some n, none => some n
  | none, o => o

def deepMergeObjects (newer older : Transformations) : Transformations :=
  { restore := newer.restore <|> older.restore,
    fillBackground := newer.fillBackground <|> older.fillBackground,
    remove := mergeOptNested mergeRemoveConfig newer.remove older.remove,
    recolor := mergeOptNested mergeRecolorConfig newer.recolor older.recolor,
    removeBackground := newer.removeBackground <|> older.removeBackground }

/-- Modelled from the spec: the JS `deepMergeObjects` tolerates `null`
arguments (the form state holds `Transformations | null`): a missing older
object leaves the newer unchanged, a missing newer object leaves the older
unchanged. -/
def deepMergeOpt : Option Transformations → Option Transformations → Option Transformations
  | newer, none => newer
  | none, some o => some o
  | some n, some o => some (deepMergeObjects n o)

/-! ## Persistence model (User and Image records, src image actions)

The action handlers (`addImage`, `updateImage`, `deleteImage`) operate on two
collections, `users` and `images`. An `ImageRecord` is the payload of
`AddImageParams.image` (src/types/index.d.ts) plus the Mongo-assigned `_id`
and the `author` reference set by the handler. -/

structure ImageData where
  title : String
  publicId : String
  transformationType : String
  width : Nat
  height : Nat
  config : Option Transformations
  secureURL : String
  transformationURL : String
  aspectRatio : Option String
  prompt : Option String
  color : Option String
deriving DecidableEq, Repr

structure ImageRecord where
  _id : String
  data : ImageData
  author : String
deriving DecidableEq, Repr

/-- The `image` payload of `UpdateImageParams`: the full field set plus the
`_id` of the record to replace. -/
structure UpdateImagePayload where
  _id : String
  data : ImageData
deriving DecidableEq, Repr

structure UserRecord where
  _id : String
  clerkId : String
  email : String
  username : String
  firstName : String
  lastName : String
  photo : String
  creditBalance : Int
deriving DecidableEq, Repr

/-- The document database: the `users` and `images` collections, plus a
counter standing for Mongo's fresh-ObjectId generation. -/
structure DB where
  users : List UserRecord
  images : List ImageRecord
  nextId : Nat
deriving DecidableEq, Repr

def DB.findUserById (db : DB) (id : String) : Option UserRecord :=
  db.users.find? (fun u => u._id == id)

def DB.findImageById (db : DB) (id : String) : Option ImageRecord :=
  db.images.find? (fun i => i._id == id)

/-- Observable side effects of an action handler besides the database write:
`revalidatePath` marks a cached page stale, `redirect` navigates, `logError`
is `handleError`'s console log. `handleError` itself lives in
`src/lib/utils`, which is not in the source tree; it is modelled from the
spec: "action handlers catch all errors, log them, and return no result". -/
inductive Effect where
  | revalidatePath (path : String)
  | redirect (path : String)
  | logError
deriving DecidableEq, Repr

/-- Outcome of one action handler call: the database afterwards, the effects
in order, and the value returned to the caller (`none` is JS `undefined`,
the catch-all error path). -/
structure ActionResult (α : Type) where
  db : DB
  effects : List Effect
  result : Option α
deriving DecidableEq, Repr

/-- `JSON.parse(JSON.stringify(r))` on a record whose fields are plain
strings, numbers, booleans and nested plain objects: the identity in this
model. -/
def jsonRoundTrip (r : ImageRecord) : ImageRecord := r

/-- The Mongo-assigned id of the next created document. -/
def DB.freshId (db : DB) : String := "img" ++ toString db.nextId

/-- `addImage({image, userId, path})`: connect, look up the owning user
(`User.findById(userId)`), throw "User not found" if absent, create the
Image record with `author := author._id`, revalidate `path`, return the
JSON round trip of the new record. Any throw is caught and logged and the
handler returns `undefined`. `connOk` stands for whether
`connectToDatabase()` succeeded. -/
def addImage (db : DB) (image : ImageData) (userId : String) (path : String)
    (connOk : Bool) : ActionResult ImageRecord :=
  if !connOk then { db := db, effects := [Effect.logError], result := none }
  else
    match db.findUserById userId with
    | none => { db := db, effects := [Effect.logError], result := none }
    | some author =>
        let newImage : ImageRecord := { _id := db.freshId, data := image, author := author._id }
        { db := { db with images := db.images ++ [newImage], nextId := db.nextId + 1 },
          effects := [Effect.revalidatePath path],
          result := some (jsonRoundTrip newImage) }

/-- `updateImage({image, userId, path})`: connect, load the record by
`image._id`, throw "Unauthorized or Image not found" if it is missing or its
`author` differs from `userId`, else replace the record's fields with the
payload (`findByIdAndUpdate`; the `author` reference is not part of the
payload and is preserved), revalidate `path`, return the JSON round trip of
the updated record. Any throw is caught and logged and the handler returns
`undefined`. -/
def updateImage (db : DB) (image : UpdateImagePayload) (userId : String) (path : String)
    (connOk : Bool) : ActionResult ImageRecord :=
  if !connOk then { db := db, effects := [Effect.logError], result := none }
  else
    match db.findImageById image._id with
    | none => { db := db, effects := [Effect.logError], result := none }
    | some imageToUpdate =>
        if imageToUpdate.author != userId then
          { db := db, effects := [Effect.logError], result := none }
        else
          let updated : ImageRecord :=
            { _id := imageToUpdate._id, data := image.data, author := imageToUpdate.author }
          { db := { db with
                      images := db.images.map (fun i => if i._id == imageToUpdate._id then updated else i) },
            effects := [Effect.revalidatePath path],
            result := some (jsonRoundTrip updated) }

/-- `deleteImage(imageId)`: connect, `findByIdAndDelete(imageId)` (a no-op
when no record matches), catch-and-log any throw, and in the `finally` block
unconditionally redirect to `/`. `opThrows` stands for the connect or the
delete operation throwing; the handler returns nothing either way. -/
def deleteImage (db : DB) (imageId : String) (opThrows : Bool) : ActionResult Unit :=
  if opThrows then
    { db := db, effects := [Effect.logError, Effect.redirect "/"], result := none }
  else
    { db := { db with images := db.images.eraseP (fun i => i._id == imageId) },
      effects := [Effect.redirect "/"],
      result := none }

/-! ## Database connector (mongoose connector source file)

`connectToDatabase` reads the process-wide cache
`{connection: Mongoose | null, promise: Promise<Mongoose> | null}`.
JavaScript is single-threaded and cooperative, so everything from the start
of the function up to its first `await` runs atomically; the function is
embedded as that synchronous prefix (`connectToDatabaseSync`), plus the
resumption that runs when the awaited promise resolves
(`promiseResolves`). Promise identities and connection handles are numbered;
`attempts` counts calls of `mongoose.connect`. -/

structure MongooseConnection where
  connection : Option Nat
  promise : Option Nat
deriving DecidableEq, Repr

structure ConnWorld where
  cached : MongooseConnection
  attempts : Nat
deriving DecidableEq, Repr

/-- What the synchronous prefix of one `connectToDatabase()` call produced:
an already-established handle returned immediately, a suspension awaiting a
promise, or the thrown configuration error `MONGO_URI is not defined or
Missing`. -/
inductive ConnOutcome where
  | returned (handle : Nat)
  | awaiting (promiseId : Nat)
  | configError
deriving DecidableEq, Repr

/-- The synchronous prefix of `connectToDatabase`: return the cached
connection if present; throw if `MONGO_URI` is absent; otherwise reuse the
cached in-flight promise or, when there is none, start exactly one
`mongoose.connect` call (fresh promise id, `attempts` incremented) and await
it. -/
def connectToDatabaseSync (uriPresent : Bool) (w : ConnWorld) : ConnWorld × ConnOutcome :=
  match w.cached.connection with
  | some h => (w, ConnOutcome.returned h)
  | none =>
    if !uriPresent then (w, ConnOutcome.configError)
    else
      match w.cached.promise with
      | some p => (w, ConnOutcome.awaiting p)
      | none =>
          let p := w.attempts
          ({ cached := { w.cached with promise := some p }, attempts := w.attempts + 1 },
           ConnOutcome.awaiting p)

/-- Resumption after `await cached.promise` resolves with handle `h`:
`cached.connection = await cached.promise`. -/
def promiseResolves (w : ConnWorld) (h : Nat) : ConnWorld :=
  { w with cached := { w.cached with connection := some h } }

/-- Connector states reachable in a process whose environment lacks
`MONGO_URI` (the module-level constant is read once at load): starting from
the empty cache, any interleaving of connector calls and promise
resolutions (a resolution requires an in-flight promise). -/
inductive ReachableNoUri : ConnWorld → Prop
  | init : ReachableNoUri ⟨⟨none, none⟩, 0⟩
  | call (w : ConnWorld) : ReachableNoUri w → ReachableNoUri (connectToDatabaseSync false w).1
  | resolve (w : ConnWorld) (h p : Nat) : ReachableNoUri w → w.cached.promise = some p →
      ReachableNoUri (promiseResolves w h)

/-! ## Transformation form (TransformationForm component) -/

/-- The component state that drives the two buttons: the debounced pending
change (`newTransformation`, `null` when there is none), and the two
in-flight flags. -/
structure FormState where
  newTransformation : Option Transformations
  isSubmitting : Bool
  isTransforming : Bool
deriving DecidableEq, Repr

/-- The `disabled` prop of the Apply-transformation button:
`isTransforming || newTransformation === null`. -/
def applyButtonDisabled (s : FormState) : Bool :=
  s.isTransforming || s.newTransformation.isNone

/-- The `disabled` prop of the Save-image button: `isSubmitting`. -/
def saveButtonDisabled (s : FormState) : Bool :=
  s.isSubmitting

/-- Whether the insufficient-credits modal is rendered:
`creditBalance < Math.abs(creditFee)`. -/
def insufficientCreditsModalShown (creditBalance creditFee : Int) : Bool :=
  creditBalance < |creditFee|

/-- Observable steps of one `onSubmit` run, in order. -/
inductive SubmitEffect where
  | setSubmitting (b : Bool)
  | callAddImage
  | callUpdateImage
  | resetForm
  | setImageState
  | navigate (path : String)
deriving DecidableEq, Repr

/-- `onSubmit(values)`: set `isSubmitting`; only when `data || image` holds,
build the payload and run the `action === 'Add'` branch (call `addImage`; on
a defined result reset the form, set the image state back to `data`, and
push `/transformations/{new id}`) and the `action === 'Update'` branch (call
`updateImage`; on a defined result push `/transformations/{updated id}`);
finally clear `isSubmitting`. The two action calls are embedded by their
returned value (`addResult`/`updateResult`, `none` for a handler that
returned `undefined` per its catch-all). -/
def onSubmit (action : String) (data : Option ImageRecord) (image : Option ImageData)
    (addResult : Option ImageRecord) (updateResult : Option ImageRecord) :
    List SubmitEffect :=
  [SubmitEffect.setSubmitting true] ++
  (if data.isSome || image.isSome then
    (if action == "Add" then
      [SubmitEffect.callAddImage] ++
      (match addResult with
       | some newImage =>
          [SubmitEffect.resetForm, SubmitEffect.setImageState,
           SubmitEffect.navigate ("/transformations/" ++ newImage._id)]
       | none => [])
     else []) ++
    (if action == "Update" then
      [SubmitEffect.callUpdateImage] ++
      (match updateResult with
       | some updatedImage =>
          [SubmitEffect.navigate ("/transformations/" ++ updatedImage._id)]
       | none => [])
     else [])
   else []) ++
  [SubmitEffect.setSubmitting false]

/-- Observable steps of one `onTransformHandler` run, in order. -/
inductive TransformEffect where
  | setTransforming (b : Bool)
  | setConfig (c : Option Transformations)
  | clearPendingChange
  | updateCredits (userId : String) (fee : Int)
deriving DecidableEq, Repr

/-- `onTransformHandler()`: set `isTransforming`, deep-merge the pending
change into the accumulated config, clear the pending change
(`setNewTransformation(null)`), and start the `updateCredits(userId,
creditFee)` transition. The handler never reads `creditBalance`. -/
def onTransformHandler (userId : String) (creditFee : Int)
    (newTransformation transformationConfig : Option Transformations) :
    List TransformEffect :=
  [TransformEffect.setTransforming true,
   TransformEffect.setConfig (deepMergeOpt newTransformation transformationConfig),
   TransformEffect.clearPendingChange,
   TransformEffect.updateCredits userId creditFee]

/-! ## Debounced input handling (onInputChangeHandler) -/

/-- One keystroke handled by `onInputChangeHandler`: its time in
milliseconds, the field being edited (`'prompt'` or `'color'`), the typed
value, and the transformation type passed through (`'remove'` or
`'recolor'` at the two call sites). -/
structure InputEdit where
  time : Nat
  fieldName : String
  value : String
  ty : String
deriving DecidableEq, Repr

/-- The functional update the handler passes to `setNewTransformation`:
`{...prevState, [type]: {...prevState?.[type],
[fieldName === 'prompt' ? 'prompt' : 'to']: value}}`, at the shapes the two
call sites produce (`type` is `'recolor'` or `'remove'`; for `'remove'` the
field is always `'prompt'`). -/
def applyInputEdit (e : InputEdit) (prevState : Option Transformations) : Transformations :=
  let base := prevState.getD emptyTransformations
  if e.ty == "recolor" then
    let rc := base.recolor.getD emptyRecolorConfig
    if e.fieldName == "prompt" then
      { base with recolor := some { rc with prompt := some e.value } }
    else
      { base with recolor := some { rc with «to» := some e.value } }
  else
    let rm := base.remove.getD emptyRemoveConfig
    { base with remove := some { rm with prompt := some e.value } }

/-- Modelled from the spec: `debounce` lives in `src/lib/utils`, which is not
in the source tree. Per the spec, each debounced function delays dispatch
"with the last call within the window winning": it owns one pending timer,
and a call cancels that pending timer and schedules the callback `delay`
milliseconds later. The pending slot holds the fire time and the edit the
scheduled callback will apply. -/
structure Debouncer where
  pending : Option (Nat × InputEdit)
deriving DecidableEq, Repr

def Debouncer.fresh : Debouncer := { pending := none }

/-- Invoking a debounced function at time `now`: whatever `d` had pending is
cancelled and the new callback is scheduled for `now + delay`. -/
def Debouncer.call (d : Debouncer) (now delay : Nat) (e : InputEdit) : Debouncer :=
  { d with pending := some (now + delay, e) }

/-- The source call site (`debounce(() => {...}, 1000)()` inside
`onInputChangeHandler`): every keystroke constructs a fresh debounced
closure and invokes it exactly once, so each keystroke schedules its own
callback on its own timer. -/
def handlerScheduledCallbacks (edits : List InputEdit) (delay : Nat) :
    List (Nat × InputEdit) :=
  edits.filterMap (fun e => ((Debouncer.fresh).call e.time delay e).pending)

/-- A scheduled callback fires unless its owning debouncer is called again
before the fire time; each call-site debouncer is used exactly once, so
every scheduled callback fires (in fire-time order, which for
chronologically ordered edits is the keystroke order). -/
def firedUpdates (edits : List InputEdit) (delay : Nat) : List InputEdit :=
  (handlerScheduledCallbacks edits delay).map Prod.snd

/-- Run the fired `setNewTransformation` updates over the pending state. -/
def runUpdates (updates : List InputEdit) (init : Option Transformations) :
    Option Transformations :=
  updates.foldl (fun st e => some (applyInputEdit e st)) init

/-- For contrast with the call site: one shared debounced function handling
the whole keystroke sequence, as the spec describes. Processing an edit
first fires any pending callback whose time has passed, then reschedules;
after the last edit the remaining pending callback fires. Returns the
updates that fire, in order. -/
def sharedDebouncerFired (edits : List InputEdit) (delay : Nat) : List InputEdit :=
  let step := fun (acc : Debouncer × List InputEdit) (e : InputEdit) =>
    let fired := match acc.1.pending with
      | some (ft, pe) => if ft ≤ e.time then acc.2 ++ [pe] else acc.2
      | none => acc.2
    (acc.1.call e.time delay e, fired)
  let final := edits.foldl step (Debouncer.fresh, [])
  match final.1.pending with
  | some (_, pe) => final.2 ++ [pe]
  | none => final.2

/-- Five keystrokes typing "cars" into the recolor prompt, 100 ms apart: all
five fall inside the 1000 ms debounce window opened by the first. -/
def fiveEdits : List InputEdit :=
  [⟨0, "prompt", "c", "recolor"⟩,
   ⟨100, "prompt", "ca", "recolor"⟩,
   ⟨200, "prompt", "car", "recolor"⟩,
   ⟨300, "prompt", "carr", "recolor"⟩,
   ⟨400, "prompt", "cars", "recolor"⟩]

/-! ## Concrete fixtures for witnesses -/

def sampleImageData : ImageData :=
  { title := "portrait", publicId := "pix1", transformationType := "recolor",
    width := 1000, height := 1000, config := none, secureURL := "https-a",
    transformationURL := "https-b", aspectRatio := none, prompt := none, color := none }

def aliceUser : UserRecord :=
  { _id := "u1", clerkId := "ck1", email := "a", username := "alice",
    firstName := "Alice", lastName := "A", photo := "ph", creditBalance := 10 }

/-- A database holding one image owned by `u1`. -/
def dbOneImage : DB :=
  { users := [aliceUser],
    images := [{ _id := "i1", data := sampleImageData, author := "u1" }],
    nextId := 7 }

/-- A database holding one user and no images. -/
def dbOneUser : DB :=
  { users := [aliceUser], images := [], nextId := 0 }

/-- Newer recolor configuration from the spec example: `{recolor: {to: "red"}}`. -/
def newerRecolorCfg : Transformations :=
  { emptyTransformations with recolor := some { emptyRecolorConfig with «to» := some "red" } }

/-- Older recolor configuration from the spec example:
`{recolor: {to: "blue", prompt: "car"}}`. -/
def olderRecolorCfg : Transformations :=
  { emptyTransformations with
      recolor := some { emptyRecolorConfig with «to» := some "blue", prompt := some "car" } }

/-! ## Theorems -/

/-- C1: `updateImage({image, userId, path})` fails — returns `undefined` and
leaves the database unmodified — whenever the stored record with id
`image._id` is missing or its `author` differs from `userId`. -/
theorem updateImage_unauthorized_or_missing_fails
    (db : DB) (image : UpdateImagePayload) (userId path : String) (connOk : Bool)
    (h : (db.findImageById image._id).all (fun r => r.author != userId) = true) :
    (updateImage db image userId path connOk).result = none ∧
    (updateImage db image userId path connOk).db = db := by
  rcases hfind : db.findImageById image._id with _ | r
  · cases connOk <;> simp [updateImage, hfind]
  · have hr : (r.author != userId) = true := by
      simpa [hfind, Option.all] using h
    cases connOk <;> simp [updateImage, hfind, hr]

/-- Witness for C1: updating `i1` (owned by `u1`) as acting user `u2` fails
and leaves the database unchanged. -/
theorem updateImage_unauthorized_or_missing_fails_witness :
    (updateImage dbOneImage ⟨"i1", sampleImageData⟩ "u2" "/transformations/i1" true).result = none ∧
    (updateImage dbOneImage ⟨"i1", sampleImageData⟩ "u2" "/transformations/i1" true).db = dbOneImage :=
  updateImage_unauthorized_or_missing_fails dbOneImage ⟨"i1", sampleImageData⟩
    "u2" "/transformations/i1" true (by decide)

/-- C2: `addImage({image, userId, path})` fails — returns `undefined` with no
record created — when no User with id `userId` exists; otherwise it appends
exactly one Image record whose `author` is the resolved user's id,
revalidates `path`, and returns the JSON round trip of the stored record,
which equals the stored record. -/
theorem addImage_creates_one_owned_record
    (db : DB) (image : ImageData) (userId path : String) :
    (db.findUserById userId = none →
        addImage db image userId path true = ⟨db, [Effect.logError], none⟩) ∧
    (∀ u, db.findUserById userId = some u →
        (addImage db image userId path true).db.images
            = db.images ++ [⟨db.freshId, image, u._id⟩] ∧
        (addImage db image userId path true).db.users = db.users ∧
        (addImage db image userId path true).effects = [Effect.revalidatePath path] ∧
        (addImage db image userId path true).result
            = some (jsonRoundTrip ⟨db.freshId, image, u._id⟩) ∧
        jsonRoundTrip (⟨db.freshId, image, u._id⟩ : ImageRecord)
            = ⟨db.freshId, image, u._id⟩) := by
  constructor
  · intro h
    simp [addImage, h]
  · intro u hu
    simp [addImage, hu, jsonRoundTrip]

/-- Witness for C2: adding an image as existing user `u1` appends exactly one
record owned by `u1` and returns it. -/
theorem addImage_creates_one_owned_record_witness :
    (addImage dbOneUser sampleImageData "u1" "/" true).db.images
        = dbOneUser.images ++ [⟨dbOneUser.freshId, sampleImageData, aliceUser._id⟩] ∧
    (addImage dbOneUser sampleImageData "u1" "/" true).db.users = dbOneUser.users ∧
    (addImage dbOneUser sampleImageData "u1" "/" true).effects
        = [Effect.revalidatePath "/"] ∧
    (addImage dbOneUser sampleImageData "u1" "/" true).result
        = some (jsonRoundTrip ⟨dbOneUser.freshId, sampleImageData, aliceUser._id⟩) ∧
    jsonRoundTrip (⟨dbOneUser.freshId, sampleImageData, aliceUser._id⟩ : ImageRecord)
        = ⟨dbOneUser.freshId, sampleImageData, aliceUser._id⟩ :=
  (addImage_creates_one_owned_record dbOneUser sampleImageData "u1" "/").2
    aliceUser (by decide)

/-- C3: `deleteImage(imageId)` ends in a redirect to `/` whether the delete
succeeded, the record was missing, or the operation threw, and it returns
nothing. -/
theorem deleteImage_always_redirects_home (db : DB) (imageId : String) (opThrows : Bool) :
    (deleteImage db imageId opThrows).effects.getLast? = some (Effect.redirect "/") ∧
    (deleteImage db imageId opThrows).result = none := by
  cases opThrows <;> exact ⟨rfl, rfl⟩

/-- C4: evaluation of the code at the failing input. Five keystrokes 100 ms
apart all fall within the 1000 ms debounce window opened by the first, yet
the handler performs five pending-state updates, not one, because
`debounce(() => {...}, 1000)()` constructs a fresh debounced closure per
keystroke, so no keystroke cancels the previous timer. The final pending
state does reflect the last edit's value, and a single shared debounced
function over the same keystrokes — the behaviour the claim describes —
would have fired exactly one update carrying the last value. -/
theorem onInputChange_fresh_debouncer_fires_per_keystroke :
    fiveEdits.all (fun e => e.time < 1000) = true ∧
    (firedUpdates fiveEdits 1000).length = 5 ∧
    ((firedUpdates fiveEdits 1000).length == 1) = false ∧
    runUpdates (firedUpdates fiveEdits 1000) none
      = some { emptyTransformations with
                 recolor := some { emptyRecolorConfig with prompt := some "cars" } } ∧
    sharedDebouncerFired fiveEdits 1000
      = [⟨400, "prompt", "cars", "recolor"⟩] := by
  decide

/-- C5: the deep merge used by the Apply-transformation handler satisfies the
spec's policy: the two concrete examples hold, a scalar key present on the
newer object wins, a scalar key absent from the newer object is preserved
from the older, a nested object absent from the newer object is preserved
from the older, and nested objects present on both sides merge recursively
with the newer leaf winning and sibling leaves preserved. -/
theorem deepMergeObjects_overlay_policy :
    (deepMergeObjects
        { emptyTransformations with restore := some true }
        { emptyTransformations with fillBackground := some true }
      = { emptyTransformations with restore := some true, fillBackground := some true }) ∧
    (deepMergeObjects
        { emptyTransformations with
            recolor := some { emptyRecolorConfig with «to» := some "red" } }
        { emptyTransformations with
            recolor := some { emptyRecolorConfig with «to» := some "blue", prompt := some "car" } }
      = { emptyTransformations with
            recolor := some { emptyRecolorConfig with «to» := some "red", prompt := some "car" } }) ∧
    (∀ n o : Transformations, ∀ b : Bool,
        n.restore = some b → (deepMergeObjects n o).restore = some b) ∧
    (∀ n o : Transformations,
        n.restore = none → (deepMergeObjects n o).restore = o.restore) ∧
    (∀ n o : Transformations,
        n.recolor = none → (deepMergeObjects n o).recolor = o.recolor) ∧
    (∀ n o : Transformations, ∀ rn ro : RecolorConfig,
        n.recolor = some rn → o.recolor = some ro →
        (deepMergeObjects n o).recolor = some (mergeRecolorConfig rn ro) ∧
        (∀ c, rn.«to» = some c → (mergeRecolorConfig rn ro).«to» = some c) ∧
        (rn.prompt = none → (mergeRecolorConfig rn ro).prompt = ro.prompt)) := by
  refine ⟨by decide, by decide, ?_, ?_, ?_, ?_⟩
  · intro n o b h
    simp [deepMergeObjects, h]
  · intro n o h
    simp [deepMergeObjects, h]
  · intro n o h
    simp [deepMergeObjects, h, mergeOptNested]
  · intro n o rn ro hn ho
    refine ⟨by simp [deepMergeObjects, hn, ho, mergeOptNested], ?_, ?_⟩
    · intro c hc
      simp [mergeRecolorConfig, hc]
    · intro h
      simp [mergeRecolorConfig, h]

/-- Witness for C5: the overlay clauses applied at concrete configurations:
a newer `restore` wins, an absent newer `restore` and `recolor` preserve the
older values, and nested recolor objects merge with the newer `to` winning
and the older `prompt` preserved. -/
theorem deepMergeObjects_overlay_policy_witness :
    (deepMergeObjects { emptyTransformations with restore := some false }
        { emptyTransformations with restore := some true }).restore = some false ∧
    (deepMergeObjects emptyTransformations
        { emptyTransformations with restore := some true }).restore = some true ∧
    (deepMergeObjects emptyTransformations
        { emptyTransformations with
            recolor := some { emptyRecolorConfig with prompt := some "car" } }).recolor
      = some { emptyRecolorConfig with prompt := some "car" } ∧
    (deepMergeObjects newerRecolorCfg olderRecolorCfg).recolor
      = some (mergeRecolorConfig { emptyRecolorConfig with «to» := some "red" }
          { emptyRecolorConfig with «to» := some "blue", prompt := some "car" }) ∧
    (mergeRecolorConfig { emptyRecolorConfig with «to» := some "red" }
        { emptyRecolorConfig with «to» := some "blue", prompt := some "car" }).«to»
      = some "red" ∧
    (mergeRecolorConfig { emptyRecolorConfig with «to» := some "red" }
        { emptyRecolorConfig with «to» := some "blue", prompt := some "car" }).prompt
      = some "car" :=
  ⟨deepMergeObjects_overlay_policy.2.2.1 _ _ false rfl,
   deepMergeObjects_overlay_policy.2.2.2.1 _ _ rfl,
   deepMergeObjects_overlay_policy.2.2.2.2.1 _ _ rfl,
   (deepMergeObjects_overlay_policy.2.2.2.2.2 newerRecolorCfg olderRecolorCfg
      { emptyRecolorConfig with «to» := some "red" }
      { emptyRecolorConfig with «to» := some "blue", prompt := some "car" } rfl rfl).1,
   (deepMergeObjects_overlay_policy.2.2.2.2.2 newerRecolorCfg olderRecolorCfg
      { emptyRecolorConfig with «to» := some "red" }
      { emptyRecolorConfig with «to» := some "blue", prompt := some "car" } rfl rfl).2.1 "red" rfl,
   (deepMergeObjects_overlay_policy.2.2.2.2.2 newerRecolorCfg olderRecolorCfg
      { emptyRecolorConfig with «to» := some "red" }
      { emptyRecolorConfig with «to» := some "blue", prompt := some "car" } rfl rfl).2.2 rfl⟩

/-- C6: an already-established connection handle is returned unchanged with
no new connection attempt, and two callers whose synchronous prefixes both
run before the first connection resolves receive the same cached promise,
with exactly one `mongoose.connect` call between them. -/
theorem connectToDatabase_memoizes_single_attempt (w : ConnWorld) (uriPresent : Bool) :
    (∀ h, w.cached.connection = some h →
        connectToDatabaseSync uriPresent w = (w, ConnOutcome.returned h)) ∧
    (w.cached.connection = none → w.cached.promise = none →
        (connectToDatabaseSync true w).2 = ConnOutcome.awaiting w.attempts ∧
        (connectToDatabaseSync true (connectToDatabaseSync true w).1).2
            = ConnOutcome.awaiting w.attempts ∧
        (connectToDatabaseSync true (connectToDatabaseSync true w).1).1.attempts
            = w.attempts + 1) := by
  constructor
  · intro h hc
    simp [connectToDatabaseSync, hc]
  · intro hc hp
    simp [connectToDatabaseSync, hc, hp]

/-- Witness for C6: a world with an established handle returns it unchanged;
from the empty cache, two unresolved callers await promise `0` and exactly
one attempt is made. -/
theorem connectToDatabase_memoizes_single_attempt_witness :
    connectToDatabaseSync true ⟨⟨some 7, none⟩, 1⟩
        = (⟨⟨some 7, none⟩, 1⟩, ConnOutcome.returned 7) ∧
    ((connectToDatabaseSync true ⟨⟨none, none⟩, 0⟩).2
        = ConnOutcome.awaiting (ConnWorld.attempts ⟨⟨none, none⟩, 0⟩) ∧
     (connectToDatabaseSync true (connectToDatabaseSync true ⟨⟨none, none⟩, 0⟩).1).2
        = ConnOutcome.awaiting (ConnWorld.attempts ⟨⟨none, none⟩, 0⟩) ∧
     (connectToDatabaseSync true (connectToDatabaseSync true ⟨⟨none, none⟩, 0⟩).1).1.attempts
        = ConnWorld.attempts ⟨⟨none, none⟩, 0⟩ + 1) :=
  ⟨(connectToDatabase_memoizes_single_attempt ⟨⟨some 7, none⟩, 1⟩ true).1 7 rfl,
   (connectToDatabase_memoizes_single_attempt ⟨⟨none, none⟩, 0⟩ true).2 rfl rfl⟩

/-- C7: in every state of the transformation form, the Apply-transformation
button is disabled exactly when there is no pending change or a transform is
in flight, and the Save-image button is disabled exactly when a save is in
flight. -/
theorem buttons_disabled_iff (s : FormState) :
    (applyButtonDisabled s = true ↔
        (s.newTransformation = none ∨ s.isTransforming = true)) ∧
    (saveButtonDisabled s = true ↔ s.isSubmitting = true) := by
  constructor
  · simp [applyButtonDisabled, Option.isNone_iff_eq_none]
    tauto
  · simp [saveButtonDisabled]

/-- Witness for C7: with no pending change the Apply button is disabled, and
with a save in flight the Save button is disabled. -/
theorem buttons_disabled_iff_witness :
    applyButtonDisabled ⟨none, false, false⟩ = true ∧
    saveButtonDisabled ⟨none, true, false⟩ = true :=
  ⟨(buttons_disabled_iff ⟨none, false, false⟩).1.mpr (Or.inl rfl),
   (buttons_disabled_iff ⟨none, true, false⟩).2.mpr rfl⟩

/-- In a process whose environment lacks `MONGO_URI`, the connector cache
stays empty: no connection handle and no in-flight promise is ever stored. -/
theorem reachableNoUri_empty_cache (w : ConnWorld) (hw : ReachableNoUri w) :
    w.cached.connection = none ∧ w.cached.promise = none := by
  induction hw with
  | init => exact ⟨rfl, rfl⟩
  | call w hw ih =>
      have hstep : connectToDatabaseSync false w = (w, ConnOutcome.configError) := by
        obtain ⟨h1, _⟩ := ih
        simp [connectToDatabaseSync, h1]
      rw [hstep]
      exact ih
  | resolve w h p hw hp ih =>
      exact absurd hp (by simp [ih.2])

/-- C8: in every state reachable when `MONGO_URI` is absent from the
environment, `connectToDatabase` throws the configuration error rather than
returning a handle. -/
theorem connect_missing_uri_fails (w : ConnWorld) (hw : ReachableNoUri w) :
    (connectToDatabaseSync false w).2 = ConnOutcome.configError := by
  obtain ⟨h1, _⟩ := reachableNoUri_empty_cache w hw
  simp [connectToDatabaseSync, h1]

/-- Witness for C8: the first connector call of a process without
`MONGO_URI` throws the configuration error. -/
theorem connect_missing_uri_fails_witness :
    (connectToDatabaseSync false ⟨⟨none, none⟩, 0⟩).2 = ConnOutcome.configError :=
  connect_missing_uri_fails ⟨⟨none, none⟩, 0⟩ ReachableNoUri.init

/-- C9: when both the `data` prop and the local image state are absent,
`onSubmit` performs exactly the two `isSubmitting` toggles: it calls neither
`addImage` nor `updateImage`, navigates nowhere, and touches no other
state — whatever the action and whatever the handlers would have returned. -/
theorem onSubmit_no_image_only_toggles_submitting (action : String)
    (addResult updateResult : Option ImageRecord) :
    onSubmit action none none addResult updateResult
        = [SubmitEffect.setSubmitting true, SubmitEffect.setSubmitting false] ∧
    (onSubmit action none none addResult updateResult).contains
        SubmitEffect.callAddImage = false ∧
    (onSubmit action none none addResult updateResult).contains
        SubmitEffect.callUpdateImage = false ∧
    (onSubmit action none none addResult updateResult).all
        (fun e => match e with
          | SubmitEffect.navigate _ => false
          | _ => true) = true :=
  ⟨rfl, rfl, rfl, rfl⟩

/-- C10: `onTransformHandler` always initiates the credit deduction
`updateCredits(userId, creditFee)` — the handler never reads
`creditBalance` — and when the balance is below the fee (so the
insufficient-credits modal is rendered) the deduction, the deep merge into
the accumulated config, and the clearing of the pending change all still
happen. -/
theorem onTransform_deducts_credits_unconditionally
    (userId : String) (creditFee creditBalance : Int)
    (nt cfg : Option Transformations) :
    TransformEffect.updateCredits userId creditFee
        ∈ onTransformHandler userId creditFee nt cfg ∧
    (insufficientCreditsModalShown creditBalance creditFee = true →
      TransformEffect.updateCredits userId creditFee
          ∈ onTransformHandler userId creditFee nt cfg ∧
      TransformEffect.setConfig (deepMergeOpt nt cfg)
          ∈ onTransformHandler userId creditFee nt cfg ∧
      TransformEffect.clearPendingChange
          ∈ onTransformHandler userId creditFee nt cfg) := by
  refine ⟨?_, fun _ => ⟨?_, ?_, ?_⟩⟩ <;> simp [onTransformHandler]

/-- Witness for C10: with a zero balance and the standard fee of `-1` the
modal is shown, yet the deduction, the merge and the pending-change clear
are all initiated. -/
theorem onTransform_deducts_credits_unconditionally_witness :
    TransformEffect.updateCredits "u1" (-1)
        ∈ onTransformHandler "u1" (-1) (some emptyTransformations) none ∧
    (TransformEffect.updateCredits "u1" (-1)
        ∈ onTransformHandler "u1" (-1) (some emptyTransformations) none ∧
     TransformEffect.setConfig (deepMergeOpt (some emptyTransformations) none)
        ∈ onTransformHandler "u1" (-1) (some emptyTransformations) none ∧
     TransformEffect.clearPendingChange
        ∈ onTransformHandler "u1" (-1) (some emptyTransformations) none) :=
  ⟨(onTransform_deducts_credits_unconditionally "u1" (-1) 0
      (some emptyTransformations) none).1,
   (onTransform_deducts_credits_unconditionally "u1" (-1) 0
      (some emptyTransformations) none).2 (by decide)⟩
